import Mathlib

/-!
Verification development for a small Flask membership-management application
(`app.py`). The data model and handlers are shallowly embedded: DynamoDB items
become association lists of typed attribute values, handlers become pure
functions from an explicit store (and request data) to an outcome paired with
the store after the request.
-/

namespace OkameApp

/-- A DynamoDB typed attribute value, restricted to the types the app uses
(`{'S': ...}` strings and `{'BOOL': ...}` booleans). -/
inductive AttrValue where
  | S (s : String)
  | BOOL (b : Bool)
  deriving DecidableEq, Repr

/-- A DynamoDB item in the client wire format: a flat mapping from attribute
name to typed value, modelled as an association list. -/
abbrev Item : Type := List (String × AttrValue)

/-- Look up an attribute of an item by name (first occurrence). -/
def getAttr (it : Item) (k : String) : Option AttrValue :=
  (it.find? (fun p => p.1 == k)).map (fun p => p.2)

/-- The string payload of an attribute, if it is a string attribute
(models `item.get(k, {}).get('S')`). -/
def getS (it : Item) (k : String) : Option String :=
  match getAttr it k with
  | some (AttrValue.S s) => some s
  | _ => none

/-- A table keyed by an attribute (the primary key), in arrival order. -/
abbrev Table : Type := List Item

/-- `get_item` on a table whose primary key attribute is `keyName`:
the first item whose key attribute equals `keyVal`. -/
def getItem (tbl : Table) (keyName keyVal : String) : Option Item :=
  tbl.find? (fun it => getS it keyName == some keyVal)

/-- Apply a DynamoDB `SET a = :v, ...` update expression to one item:
each named attribute is overwritten (or added) with its new value. -/
def setAttrs (it : Item) (sets : List (String × AttrValue)) : Item :=
  sets.foldl (fun acc p => (acc.filter (fun q => q.1 != p.1)) ++ [p]) it

/-- `update_item` with an upsert semantics (DynamoDB creates the item when
the key is absent): the matching item gets the SET applied; when no item
matches, a fresh item holding the key and the SET attributes is appended. -/
def updateItem (tbl : Table) (keyName keyVal : String)
    (sets : List (String × AttrValue)) : Table :=
  match getItem tbl keyName keyVal with
  | some _ =>
      tbl.map (fun it =>
        if getS it keyName == some keyVal then setAttrs it sets else it)
  | none => tbl ++ [setAttrs [(keyName, AttrValue.S keyVal)] sets]

/-- The authenticated principal (`current_user`): its id and whether
`is_administrator` holds. -/
structure Principal where
  user_id : String
  is_administrator : Bool
  deriving DecidableEq, Repr

/-! ## The post-update handler (`update`, app.py lines 655-725) -/

/-- HTTP method of a request to `/{post_id}/update`. -/
inductive Method where
  | GET
  | POST
  deriving DecidableEq, Repr

/-- The form data a POST to `/{post_id}/update` may carry.
`request.form.get(k)` yields `None` when the field is absent; the handler
guards each field with Python truthiness, so `none` and `some ""` are both
skipped. -/
structure UpdateForm where
  title : Option String
  body : Option String
  category_id : Option String
  deriving DecidableEq, Repr

/-- Python truthiness of `request.form.get(k)`: present and non-empty. -/
def formTruthy : Option String → Bool
  | none => false
  | some s => s != ""

/-- Outcome of the post-update handler. -/
inductive UpdateOutcome where
  | redirectIndex (flashMsg : String) (flashCat : String)
  | renderUpdate (post : Item)
  deriving DecidableEq, Repr

/-- The `SET` list the POST branch of `update` builds (lines 683-706):
each of title/body/category_id when truthy, then always `updated_at`. -/
def updateExpressionSets (f : UpdateForm) (now : String) :
    List (String × AttrValue) :=
  (if formTruthy f.title then [("title", AttrValue.S (f.title.getD ""))] else [])
    ++ (if formTruthy f.body then [("body", AttrValue.S (f.body.getD ""))] else [])
    ++ (if formTruthy f.category_id then
          [("category_id", AttrValue.S (f.category_id.getD ""))] else [])
    ++ [("updated_at", AttrValue.S now)]

/-- The `/{post_id}/update` handler (app.py lines 655-725), over an explicit
posts table. GET: fetch, not-found redirect, owner-or-admin check, render.
POST: build the SET list from the supplied fields and execute `update_item`
unconditionally. Returns the outcome and the posts table afterwards. -/
def update (posts : Table) (cu : Principal) (method : Method)
    (post_id : String) (form : UpdateForm) (now : String) :
    UpdateOutcome × Table :=
  match method with
  | Method.GET =>
      match getItem posts "post_id" post_id with
      | none => (UpdateOutcome.redirectIndex "投稿が見つかりません" "error", posts)
      | some post =>
          if getS post "user_id" != some cu.user_id && !cu.is_administrator then
            (UpdateOutcome.redirectIndex "編集権限がありません" "error", posts)
          else
            (UpdateOutcome.renderUpdate post, posts)
  | Method.POST =>
      let sets := updateExpressionSets form now
      let posts2 := updateItem posts "post_id" post_id sets
      (UpdateOutcome.redirectIndex "投稿が更新されました" "success", posts2)

/-! ## The account handler (`account`, app.py lines 581-651) -/

/-- Python truthiness of a string form-field value: non-empty. -/
def strTruthy (s : String) : Bool := s != ""

/-- The positional parameters `UpdateUserForm.__init__` declares before
`*args`, excluding `self` (app.py line 167). Neither has a default. -/
def updateUserFormInitPositional : List String := ["user_id", "dynamodb_table"]

/-- The positional arguments the account handler supplies when constructing
the form: `UpdateUserForm(user_id)` (app.py line 600). -/
def accountFormCallPositional : List String := ["user_id"]

/-- Python call binding: the constructor call raises `TypeError` exactly when
fewer positional arguments are supplied than there are required positional
parameters. `TypeError` is not a `botocore ClientError`, so the handler's
`except ClientError` clause does not catch it. -/
def formConstructionRaisesTypeError : Bool :=
  accountFormCallPositional.length < updateUserFormInitPositional.length

/-- The data of the three fields the account handler's update branch reads
from `UpdateUserForm` (lines 610-621). -/
structure AccountForm where
  user_name : String
  email : String
  password : String
  deriving DecidableEq, Repr

/-- The `SET` list the account handler's update branch builds
(lines 606-625): `user_name`, `email`, `password` each when truthy, then
always `updated_at`. In the source this code is unreachable: form
construction at line 600 raises first. -/
def accountUpdateSets (f : AccountForm) (hashed now : String) :
    List (String × AttrValue) :=
  (if strTruthy f.user_name then [("user_name", AttrValue.S f.user_name)] else [])
    ++ (if strTruthy f.email then [("email", AttrValue.S f.email)] else [])
    ++ (if strTruthy f.password then [("password", AttrValue.S hashed)] else [])
    ++ [("updated_at", AttrValue.S now)]

/-- Outcome of the account handler. `abort(404)` / `abort(403)` raise
`HTTPException`s that the `except ClientError` clause does not catch, so they
surface as the corresponding status codes; an uncaught `TypeError` surfaces
as a server error. -/
inductive AccountOutcome where
  | notFound404
  | forbidden403
  | uncaughtTypeError
  | updatedRedirect (target : String)
  | renderAccount (user_name email : String)
  deriving DecidableEq, Repr

/-- The `/{user_id}/account` handler (app.py lines 581-651) over an explicit
users table. Fetch by id, 404 when absent, 403 when the requester is neither
the target user nor an administrator; then `UpdateUserForm(user_id)` is
constructed, which raises `TypeError` (missing `dynamodb_table`). The
remaining branches reproduce the source's dead continuation; `formValid`
stands for what `form.validate_on_submit()` would have returned. -/
def account (users : Table) (cu : Principal) (user_id : String)
    (method : Method) (f : AccountForm) (formValid : Bool)
    (hashed now : String) : AccountOutcome × Table :=
  match getItem users "user_id" user_id with
  | none => (AccountOutcome.notFound404, users)
  | some user =>
      if getS user "user_id" != some cu.user_id && !cu.is_administrator then
        (AccountOutcome.forbidden403, users)
      else if formConstructionRaisesTypeError then
        (AccountOutcome.uncaughtTypeError, users)
      else if formValid then
        let sets := accountUpdateSets f hashed now
        (AccountOutcome.updatedRedirect "user_maintenance",
         updateItem users "user_id" user_id sets)
      else if method == Method.GET then
        (AccountOutcome.renderAccount ((getS user "user_name").getD "")
          ((getS user "email").getD ""), users)
      else
        (AccountOutcome.renderAccount f.user_name f.email, users)

/-! ## The signup handler (`signup`, app.py lines 381-465) -/

/-- The client-level `email-index` query (equality on the `email` attribute):
returns the matching items, empty list when nothing matches. -/
def queryByEmail (users : Table) (email : String) : List Item :=
  users.filter (fun it => getS it "email" == some email)

/-- The body of the `try` in `RegistrationForm.validate_email`
(lines 134-145): a non-empty email-index result raises the duplicate-email
`ValidationError`. `none` means no exception was raised. -/
def regEmailTryBody (users : Table) (email : String) : Option String :=
  if (queryByEmail users email).isEmpty then none
  else some "入力されたメールアドレスは既に登録されています。"

/-- The whole validator (lines 133-148): `except Exception` intercepts any
raise from the body — including the duplicate-email `ValidationError` the
body itself raised — and raises the generic check-error message instead.
The result is the error list the email field ends up with. -/
def regEmailErrors (users : Table) (email : String) : List String :=
  match regEmailTryBody users email with
  | none => []
  | some _ => ["メールアドレスの確認中にエラーが発生しました。"]

/-- The registration form data the signup handler stores (lines 406-426). -/
structure RegForm where
  organization : String
  address : String
  date_of_birth : String
  display_name : String
  email : String
  furigana : String
  gender : String
  phone : String
  post_code : String
  user_name : String
  password : String
  deriving DecidableEq, Repr

/-- The item `signup` puts (lines 406-426), in the source's attribute order;
`user_id` is the generated UUID, `hashed` the password hash, `now` the
timestamp used for both audit fields. -/
def newUserItem (f : RegForm) (user_id hashed now : String) : Item :=
  [("user_id", AttrValue.S user_id),
   ("organization", AttrValue.S f.organization),
   ("address", AttrValue.S f.address),
   ("administrator", AttrValue.BOOL false),
   ("created_at", AttrValue.S now),
   ("date_of_birth", AttrValue.S f.date_of_birth),
   ("display_name", AttrValue.S f.display_name),
   ("email", AttrValue.S f.email),
   ("furigana", AttrValue.S f.furigana),
   ("gender", AttrValue.S f.gender),
   ("password", AttrValue.S hashed),
   ("phone", AttrValue.S f.phone),
   ("post_code", AttrValue.S f.post_code),
   ("updated_at", AttrValue.S now),
   ("user_name", AttrValue.S f.user_name)]

/-- `put_item`: replaces the item with the same primary key, appends when
the key is fresh. -/
def putItem (tbl : Table) (keyName : String) (item : Item) : Table :=
  match getS item keyName with
  | none => tbl ++ [item]
  | some kv =>
      match getItem tbl keyName kv with
      | some _ => tbl.map (fun it => if getS it keyName == some kv then item else it)
      | none => tbl ++ [item]

/-- Outcome of the signup handler: where it sends the client and the flash
messages (message, category) it queues. -/
inductive SignupOutcome where
  | redirectSignup (flash : List (String × String))
  | redirectLogin (flash : List (String × String))
  | renderSignup (flash : List (String × String))
  deriving DecidableEq, Repr

/-- The `/signup` handler (lines 381-465). `otherFieldErrors` summarizes the
label-prefixed messages of every validator other than `validate_email`
(presence, length, format, equality checks); it is empty for an otherwise
valid submission. When validation passes, the handler re-checks the email
index itself (lines 391-403) and only then puts the new item. When
validation failed, it flashes each field's messages, the email field's
prefixed with its label (lines 459-463), and re-renders the form. -/
def signup (users : Table) (f : RegForm) (otherFieldErrors : List String)
    (user_id hashed now : String) : SignupOutcome × Table :=
  let emailErrs := regEmailErrors users f.email
  if emailErrs.isEmpty && otherFieldErrors.isEmpty then
    if !(queryByEmail users f.email).isEmpty then
      (SignupOutcome.redirectSignup
        [("このメールアドレスは既に登録されています。", "error")], users)
    else
      (SignupOutcome.redirectLogin
        [("アカウントが作成されました！ログインしてください。", "success")],
       putItem users "user_id" (newUserItem f user_id hashed now))
  else
    (SignupOutcome.renderSignup
      ((otherFieldErrors.map (fun m => (m, "error")))
        ++ emailErrs.map (fun m => ("メールアドレス: " ++ m, "error"))), users)

/-! ## Redirect safety (`is_safe_url`, app.py lines 537-547, and the
post-login redirect, lines 521-524) -/

/-- The scheme and network-location components of a parsed URL, the two
components `is_safe_url` inspects. An empty string models an absent
component, as `urlparse` reports it. -/
structure UrlParts where
  scheme : String
  netloc : String
  deriving DecidableEq, Repr

/-- Schemes `urllib.parse.urljoin` treats as supporting relative resolution.
Only `http` and `https` matter here, because `request.host_url` always
carries one of those. -/
def uses_relative : List String :=
  ["", "ftp", "http", "gopher", "nntp", "imap", "wais", "file", "https",
   "shttp", "mms", "prospero", "rtsp", "rtspu", "sftp", "svn", "svn+ssh",
   "ws", "wss"]

/-- Schemes `urllib.parse.urljoin` treats as carrying a network location. -/
def uses_netloc : List String :=
  ["", "ftp", "http", "gopher", "nntp", "telnet", "imap", "wais", "file",
   "mms", "https", "shttp", "snews", "prospero", "rtsp", "rtspu", "rsync",
   "svn", "svn+ssh", "sftp", "nfs", "git", "git+ssh", "ws", "wss"]

/-- `urllib.parse.urljoin(base, target)` restricted to the scheme and netloc
components: the target is parsed with the base's scheme as default; a target
whose scheme differs from the base's (or is not relative-capable) is returned
unchanged; otherwise a present netloc wins over the base's. -/
def urljoinParts (base target : UrlParts) : UrlParts :=
  let scheme := if target.scheme = "" then base.scheme else target.scheme
  if scheme ≠ base.scheme ∨ ¬ uses_relative.contains scheme then
    { scheme := scheme, netloc := target.netloc }
  else if uses_netloc.contains scheme then
    { scheme := scheme,
      netloc := if target.netloc ≠ "" then target.netloc else base.netloc }
  else
    { scheme := scheme, netloc := target.netloc }

/-- `is_safe_url` (lines 543-547; an identical definition at 537-541 is
shadowed): join the target onto `request.host_url`, then require the result's
scheme to be `http` or `https` and its netloc to equal the host's. -/
def is_safe_url (host target : UrlParts) : Bool :=
  let ref_url := host
  let test_url := urljoinParts host target
  (test_url.scheme == "http" || test_url.scheme == "https")
    && (ref_url.netloc == test_url.netloc)

/-- Where a successful login redirects. -/
inductive RedirectTarget where
  | follow (t : UrlParts)
  | indexPage
  deriving DecidableEq, Repr

/-- The post-login continuation choice (lines 521-524): follow `next` only
when it is present and `is_safe_url` accepts it, else `url_for('index')`. -/
def postLoginTarget (host : UrlParts) (next_page : Option UrlParts) :
    RedirectTarget :=
  match next_page with
  | none => RedirectTarget.indexPage
  | some t =>
      if is_safe_url host t then RedirectTarget.follow t
      else RedirectTarget.indexPage

/-! ## The login form and handler (`LoginForm` lines 320-373,
`login` lines 467-534) -/

/-- A user record as the boto3 *resource* table returns it (plain values,
not the typed client format); these are the fields the login path reads. -/
structure UserRec where
  user_id : String
  display_name : String
  user_name : String
  furigana : String
  email : String
  password : String
  gender : String
  date_of_birth : String
  post_code : String
  address : String
  phone : String
  deriving DecidableEq, Repr

/-- The resource-level `email-index` equality query used by
`LoginForm.validate_email` and the login handler. -/
def resourceQueryByEmail (users : List UserRec) (email : String) :
    List UserRec :=
  users.filter (fun u => u.email == email)

/-- The body of the `try` in `LoginForm.validate_email` (lines 344-358):
raises when no item matches, else stores the first match on the form.
Returns (raised message, the `self.user` the body left behind). -/
def loginEmailTryBody (users : List UserRec) (email : String) :
    Option String × Option UserRec :=
  match resourceQueryByEmail users email with
  | [] => (some "このメールアドレスは登録されていません", none)
  | u :: _ => (none, some u)

/-- The whole validator (lines 341-361): `except Exception` intercepts any
raise from the body — including the not-registered `ValidationError` the body
itself raised — and raises the generic processing-error message instead.
Returns the email field's error list and `self.user`. -/
def loginEmailValidation (users : List UserRec) (email : String) :
    List String × Option UserRec :=
  match loginEmailTryBody users email with
  | (none, u) => ([], u)
  | (some _, u) => (["ログイン処理中にエラーが発生しました"], u)

/-- `LoginForm.validate_password` (lines 363-369): a distinct message when
`self.user` was never resolved, the wrong-password message when the hash
check fails. `chk` models `check_password_hash (stored-hash) (password)`. -/
def loginPasswordErrors (chk : String → String → Bool)
    (user : Option UserRec) (password : String) : List String :=
  match user with
  | none => ["先にメールアドレスを確認してください"]
  | some u =>
      if chk u.password password then [] else ["パスワードが正しくありません"]

/-- Python `str.lower` on the ASCII range the app's emails use. -/
def pyLower (s : String) : String := String.mk (s.data.map Char.toLower)

/-- Everything a login request's response reveals: the per-field validation
errors rendered with the form, the flash messages (message, category), the
session binding `login_user` performed (the bound user id, or none), and the
redirect issued (none = the login page is re-rendered). -/
structure LoginOutcome where
  emailErrors : List String
  passwordErrors : List String
  flash : List (String × String)
  sessionUser : Option String
  redirect : Option RedirectTarget
  deriving DecidableEq, Repr

/-- The `/login` handler for an anonymous POST (lines 467-534).
`form.validate_on_submit()` runs both store-dependent field validators; on
failure the form is re-rendered carrying their messages. On success the
handler queries the index again with the *lowercased* submitted email
(line 480): no match flashes the generic invalid-credentials message; a
match is re-checked against the submitted password, binding the session and
redirecting on success, else flashing the same generic message after a
randomized delay. The syntactic validators (`DataRequired`, `Email` format)
are not modelled: the model covers submissions carrying a non-empty,
email-shaped address and a non-empty password, which all the properties
below concern. -/
def login (users : List UserRec) (chk : String → String → Bool)
    (email password : String) (host : UrlParts)
    (next_page : Option UrlParts) : LoginOutcome :=
  let ev := loginEmailValidation users email
  let pErrs := loginPasswordErrors chk ev.2 password
  if ev.1.isEmpty && pErrs.isEmpty then
    match resourceQueryByEmail users (pyLower email) with
    | [] =>
        { emailErrors := [], passwordErrors := [],
          flash := [("メールアドレスまたはパスワードが正しくありません。", "error")],
          sessionUser := none, redirect := none }
    | u :: _ =>
        if chk u.password password then
          { emailErrors := [], passwordErrors := [],
            flash := [("ログインに成功しました。", "success")],
            sessionUser := some u.user_id,
            redirect := some (postLoginTarget host next_page) }
        else
          { emailErrors := [], passwordErrors := [],
            flash := [("メールアドレスまたはパスワードが正しくありません。", "error")],
            sessionUser := none, redirect := none }
  else
    { emailErrors := ev.1, passwordErrors := pErrs, flash := [],
      sessionUser := none, redirect := none }

/-! ## The credential module (spec §4.1; `User.set_password` /
`User.check_password`, app.py lines 263-269) -/

/-- Modelled from the spec: the Credential Module's hash record. The
implementing functions (`werkzeug.security.generate_password_hash` /
`check_password_hash`) are library code not contained in this repository;
per the spec the hash embeds a salt and the output of an iterated
key-derivation construction on the salt and password. `D` is the digest
type and `kdf` stands for the iterated HMAC-SHA256-class construction. -/
structure PwHash (D : Type) where
  salt : Nat
  digest : D
  deriving DecidableEq, Repr

/-- Modelled from the spec: `hash(password)` — salted, iterated
key-derivation; the salt is drawn outside this pure model and passed in. -/
def generate_password_hash {D : Type} (kdf : Nat → String → D)
    (salt : Nat) (p : String) : PwHash D :=
  { salt := salt, digest := kdf salt p }

/-- Modelled from the spec: `verify(password, hash)` — recomputes with the
embedded salt and compares; total, so a wrong password yields `false`
rather than an exception. -/
def check_password_hash {D : Type} [DecidableEq D]
    (kdf : Nat → String → D) (h : PwHash D) (p : String) : Bool :=
  decide (kdf h.salt p = h.digest)

/-! ## The delete handler (`delete`, app.py lines 728-734) -/

/-- The names bound at module scope in app.py: the imports (lines 1-23) and
the module-level assignments, function and class definitions. Neither `Post`
nor `db`, which the delete handler references, is among them. -/
def moduleTopLevelNames : List String :=
  ["Flask", "FlaskForm", "render_template", "request", "redirect", "url_for",
   "flash", "abort", "session", "UserMixin", "LoginManager", "login_user",
   "logout_user", "login_required", "current_user", "generate_password_hash",
   "check_password_hash", "ValidationError", "StringField", "PasswordField",
   "SubmitField", "SelectField", "DateField", "BooleanField", "DataRequired",
   "Email", "EqualTo", "Length", "Optional", "pytz", "os", "boto3",
   "secure_filename", "uuid", "datetime", "date", "io", "Image",
   "relativedelta", "ClientError", "init_tables", "logging", "time",
   "random", "urlparse", "urljoin", "load_dotenv", "logger", "app",
   "login_manager", "create_app", "tokyo_time", "load_user",
   "RegistrationForm", "UpdateUserForm", "User", "get_user_from_dynamodb",
   "LoginForm", "index", "signup", "login", "is_safe_url", "logout",
   "user_maintenance", "account", "update", "delete"]

/-- Outcome of the delete handler: either the redirect the source intends,
or an uncaught `NameError` for an undefined global (the handler has no
try/except, so it surfaces as a server error). -/
inductive DeleteOutcome where
  | redirectRoot
  | nameError (name : String)
  deriving DecidableEq, Repr

/-- The `/{id}/delete` handler (lines 728-734). Its first statement
evaluates the global name `Post` (line 731); a name absent from module
scope raises `NameError` before anything else runs. The delete-by-primary-key
branch reproduces what the ORM calls would do if the names existed. -/
def delete (posts : Table) (id : Nat) : DeleteOutcome × Table :=
  if moduleTopLevelNames.contains "Post" then
    (DeleteOutcome.redirectRoot,
     posts.filter (fun it => getS it "post_id" != some (toString id)))
  else
    (DeleteOutcome.nameError "Post", posts)

/-! ## Concrete fixtures -/

/-- A post owned by user `U1`. -/
def post1 : Item :=
  [("post_id", AttrValue.S "P1"), ("user_id", AttrValue.S "U1"),
   ("title", AttrValue.S "old title"), ("body", AttrValue.S "old body"),
   ("category_id", AttrValue.S "c1"), ("created_at", AttrValue.S "t0"),
   ("updated_at", AttrValue.S "t0")]

/-- A posts table holding just `post1`. -/
def postsDemo : Table := [post1]

/-- A posts table holding one post whose primary key is the string form of
the integer route parameter `1`. -/
def postsIntDemo : Table :=
  [[("post_id", AttrValue.S "1"), ("user_id", AttrValue.S "U1"),
    ("title", AttrValue.S "a post"), ("updated_at", AttrValue.S "t0")]]

/-- The principal that owns `post1` and the `U1` user record. -/
def ownerU1 : Principal := { user_id := "U1", is_administrator := false }

/-- An authenticated principal that is neither owner nor administrator. -/
def outsiderU2 : Principal := { user_id := "U2", is_administrator := false }

/-- An administrator principal. -/
def adminA : Principal := { user_id := "ADM", is_administrator := true }

/-- The stored user record of `U1` in the client wire format. Its email is
not in lowercase form. -/
def aliceItem : Item :=
  [("user_id", AttrValue.S "U1"), ("organization", AttrValue.S "uguis"),
   ("address", AttrValue.S "Tokyo"), ("administrator", AttrValue.BOOL false),
   ("created_at", AttrValue.S "t0"),
   ("date_of_birth", AttrValue.S "2000-01-01"),
   ("display_name", AttrValue.S "Alice"),
   ("email", AttrValue.S "Alice@Example.com"),
   ("furigana", AttrValue.S "アリス"), ("gender", AttrValue.S "female"),
   ("password", AttrValue.S "H:pw"), ("phone", AttrValue.S "0312345678"),
   ("post_code", AttrValue.S "1234567"), ("updated_at", AttrValue.S "t0"),
   ("user_name", AttrValue.S "alice")]

/-- A users table (client format) holding just `aliceItem`. -/
def usersDemo : Table := [aliceItem]

/-- The same `U1` record as the resource-level login path sees it. -/
def aliceRec : UserRec :=
  { user_id := "U1", display_name := "Alice", user_name := "alice",
    furigana := "アリス", email := "Alice@Example.com", password := "H:pw",
    gender := "female", date_of_birth := "2000-01-01",
    post_code := "1234567", address := "Tokyo", phone := "0312345678" }

/-- A resource-level users table holding a user whose stored email is
already lowercase. -/
def bobRec : UserRec :=
  { user_id := "U9", display_name := "Bob", user_name := "bob",
    furigana := "ボブ", email := "b@example.com", password := "H:secret",
    gender := "male", date_of_birth := "1999-09-09",
    post_code := "7654321", address := "Osaka", phone := "0698765432" }

/-- A concrete stand-in for `check_password_hash`: the stored hash is the
password prefixed with a tag. -/
def chkDemo : String → String → Bool := fun h p => h == "H:" ++ p

/-- A concrete injective key-derivation function for witnesses. -/
def kdfId : Nat → String → String := fun _ p => p

/-- The site of the running request, as `request.host_url` parses. -/
def hostDemo : UrlParts := { scheme := "http", netloc := "example.com" }

/-- A continuation target on the same netloc as `hostDemo` but with the
other web scheme. -/
def crossSchemeTarget : UrlParts :=
  { scheme := "https", netloc := "example.com" }

/-- A registration submission reusing `aliceItem`'s email; every other
field is valid. -/
def dupRegForm : RegForm :=
  { organization := "uguis", address := "Kyoto",
    date_of_birth := "2001-02-03", display_name := "Mallory",
    email := "Alice@Example.com", furigana := "マロリー", gender := "other",
    phone := "0311112222", post_code := "7654321", user_name := "mallory",
    password := "password123" }

/-! ## Claim theorems -/

/-- C1: the owner-or-admin restriction on the edit-post handler holds only
on the GET path. The same authenticated principal `U2` — neither owner of
`P1` nor administrator — is turned away by GET, yet its POST executes the
store update (the stored title changes and `updated_at` advances) and is
answered with the success redirect, not the no-permission redirect. This
exhibits the code violating the claimed invariant on the POST path. -/
theorem C1_update_post_bypasses_owner_check :
    getS post1 "user_id" ≠ some outsiderU2.user_id
      ∧ outsiderU2.is_administrator = false
      ∧ (update postsDemo outsiderU2 Method.GET "P1"
          { title := some "hacked", body := none, category_id := none } "t1")
          = (UpdateOutcome.redirectIndex "編集権限がありません" "error", postsDemo)
      ∧ (update postsDemo outsiderU2 Method.POST "P1"
          { title := some "hacked", body := none, category_id := none } "t1").1
          = UpdateOutcome.redirectIndex "投稿が更新されました" "success"
      ∧ getS (((update postsDemo outsiderU2 Method.POST "P1"
            { title := some "hacked", body := none, category_id := none } "t1").2.find?
              (fun it => getS it "post_id" == some "P1")).getD [])
          "title" = some "hacked"
      ∧ (update postsDemo outsiderU2 Method.POST "P1"
          { title := some "hacked", body := none, category_id := none } "t1").2
          ≠ postsDemo := by
  decide

/-- C2 counterexample: the two login-failure causes are distinguishable in
the user-visible output, refuting the claim at a concrete input. With the
same one-user store, an unknown email and a known email with a wrong
password produce different responses — the email-field error lists differ
and the password-field error lists differ — and neither case shows the
single generic invalid-credentials message (the flash list is empty, the
messages shown are the per-field validator messages). No session is bound
in either case. -/
theorem C2_login_failures_distinguishable :
    login [bobRec] chkDemo "nobody@example.com" "secret" hostDemo none
        ≠ login [bobRec] chkDemo "b@example.com" "wrong" hostDemo none
      ∧ (login [bobRec] chkDemo "nobody@example.com" "secret" hostDemo none).emailErrors
        ≠ (login [bobRec] chkDemo "b@example.com" "wrong" hostDemo none).emailErrors
      ∧ (login [bobRec] chkDemo "nobody@example.com" "secret" hostDemo none).passwordErrors
        ≠ (login [bobRec] chkDemo "b@example.com" "wrong" hostDemo none).passwordErrors
      ∧ (login [bobRec] chkDemo "nobody@example.com" "secret" hostDemo none).flash = []
      ∧ (login [bobRec] chkDemo "b@example.com" "wrong" hostDemo none).flash = []
      ∧ (login [bobRec] chkDemo "nobody@example.com" "secret" hostDemo none).sessionUser = none
      ∧ (login [bobRec] chkDemo "b@example.com" "wrong" hostDemo none).sessionUser = none := by
  decide

/-- C2 (amended): a failed login leaves the session unbound, but the surfaced
messages are field-specific and differ by cause — an unknown email yields the
generic processing-error message on the email field (the validator's own
not-registered raise is swallowed by its `except Exception`) together with
the check-email-first message on the password field, while a known email with
a wrong password yields only the password-incorrect message. -/
theorem C2_login_failure_field_messages (users : List UserRec)
    (chk : String → String → Bool) (e p : String) (host : UrlParts)
    (next_page : Option UrlParts) :
    (resourceQueryByEmail users e = [] →
      login users chk e p host next_page =
        { emailErrors := ["ログイン処理中にエラーが発生しました"],
          passwordErrors := ["先にメールアドレスを確認してください"],
          flash := [], sessionUser := none, redirect := none })
    ∧ (∀ u rest, resourceQueryByEmail users e = u :: rest →
        chk u.password p = false →
        login users chk e p host next_page =
          { emailErrors := [],
            passwordErrors := ["パスワードが正しくありません"],
            flash := [], sessionUser := none, redirect := none }) := by
  constructor
  · intro h
    simp [login, loginEmailValidation, loginEmailTryBody,
      loginPasswordErrors, h]
  · intro u rest h hchk
    simp [login, loginEmailValidation, loginEmailTryBody,
      loginPasswordErrors, h, hchk]

/-- C2 witness: the amended theorem applied to the concrete one-user store,
once per failure cause. -/
theorem C2_login_failure_field_messages_witness :
    login [bobRec] chkDemo "nobody@example.com" "secret" hostDemo none =
        { emailErrors := ["ログイン処理中にエラーが発生しました"],
          passwordErrors := ["先にメールアドレスを確認してください"],
          flash := [], sessionUser := none, redirect := none }
      ∧ login [bobRec] chkDemo "b@example.com" "wrong" hostDemo none =
        { emailErrors := [],
          passwordErrors := ["パスワードが正しくありません"],
          flash := [], sessionUser := none, redirect := none } :=
  ⟨(C2_login_failure_field_messages [bobRec] chkDemo "nobody@example.com"
      "secret" hostDemo none).1 (by decide),
   (C2_login_failure_field_messages [bobRec] chkDemo "b@example.com"
      "wrong" hostDemo none).2 bobRec [] (by decide) (by decide)⟩

/-- C3: whenever the target user exists and the requester passes the
owner-or-admin check, the account handler's construction of
`UpdateUserForm` raises `TypeError` — the call supplies fewer positional
arguments than `UpdateUserForm.__init__` requires — and, since
`except ClientError` does not catch it, the handler ends there with the
store unchanged: no record is read into the form and no update runs. -/
theorem C3_account_form_construction_type_error (users : Table)
    (cu : Principal) (uid : String) (method : Method) (f : AccountForm)
    (formValid : Bool) (hashed now : String) (user : Item)
    (hu : getItem users "user_id" uid = some user)
    (hauth : getS user "user_id" = some cu.user_id
      ∨ cu.is_administrator = true) :
    account users cu uid method f formValid hashed now
      = (AccountOutcome.uncaughtTypeError, users) := by
  unfold account
  rw [hu]
  have hcond : (getS user "user_id" != some cu.user_id
      && !cu.is_administrator) = false := by
    rcases hauth with h | h
    · simp [h]
    · simp [h]
  simp [hcond, formConstructionRaisesTypeError,
    accountFormCallPositional, updateUserFormInitPositional]

/-- C3 witness: an administrator's POST to `U1`'s account page dies with the
uncaught `TypeError` and leaves the store as it was. -/
theorem C3_account_form_construction_type_error_witness :
    account usersDemo adminA "U1" Method.POST
        { user_name := "alice", email := "Alice@Example.com",
          password := "" } true "H:pw" "t1"
      = (AccountOutcome.uncaughtTypeError, usersDemo) :=
  C3_account_form_construction_type_error usersDemo adminA "U1" Method.POST
    { user_name := "alice", email := "Alice@Example.com", password := "" }
    true "H:pw" "t1" aliceItem (by decide) (Or.inr (by decide))

/-- C4: a registration reusing an existing email inserts nothing — that part
of the claim holds — but the surfaced message is not the duplicate-email
error: the validator's own duplicate-email `ValidationError` is swallowed by
its `except Exception` clause, so the user sees the generic
email-check-error message, and the handler's duplicate branch (which does
carry the duplicate message) is never reached. -/
theorem C4_duplicate_email_signup_message :
    queryByEmail usersDemo dupRegForm.email ≠ []
      ∧ signup usersDemo dupRegForm [] "U-NEW" "H:password123" "t1"
        = (SignupOutcome.renderSignup
            [("メールアドレス: メールアドレスの確認中にエラーが発生しました。",
              "error")], usersDemo)
      ∧ "メールアドレス: メールアドレスの確認中にエラーが発生しました。"
          ≠ "メールアドレス: 入力されたメールアドレスは既に登録されています。"
      ∧ regEmailTryBody usersDemo dupRegForm.email
          = some "入力されたメールアドレスは既に登録されています。" := by
  decide

/-- C5: a member-update submission in which, among the updatable fields,
only `email` is supplied non-empty never changes the record: the handler
raises the uncaught `TypeError` of the form construction before building any
update, so the stored email keeps its old value and `updated_at` is not
advanced — contrary to the claimed email-and-updated_at-only update. -/
theorem C5_account_email_update_never_applied :
    account usersDemo ownerU1 "U1" Method.POST
        { user_name := "", email := "new@example.com", password := "" }
        true "unused-hash" "t1"
      = (AccountOutcome.uncaughtTypeError, usersDemo)
      ∧ getS aliceItem "email" = some "Alice@Example.com"
      ∧ getS aliceItem "updated_at" = some "t0"
      ∧ some "Alice@Example.com" ≠ some "new@example.com" := by
  decide

/-- C6 counterexample: a target on the site's own netloc but with the other
web scheme is accepted by `is_safe_url` and followed by the post-login
redirect, although its scheme differs from the current site's — the check
requires membership in {http, https}, not equality with the site's scheme. -/
theorem C6_cross_scheme_target_followed :
    crossSchemeTarget.scheme ≠ hostDemo.scheme
      ∧ is_safe_url hostDemo crossSchemeTarget = true
      ∧ postLoginTarget hostDemo (some crossSchemeTarget)
          = RedirectTarget.follow crossSchemeTarget := by
  decide

/-- C6 (amended): the redirect mechanism accepts exactly the targets whose
resolution against the site has scheme http or https and the site's netloc —
so a same-netloc target is followed even when its scheme differs from the
site's, as long as it is one of the two web schemes — and in every other
case, as well as when no target was requested, it falls back to the index
page. -/
theorem C6_safe_redirect_characterization (host t : UrlParts) :
    (is_safe_url host t = true ↔
      (((urljoinParts host t).scheme = "http"
          ∨ (urljoinParts host t).scheme = "https")
        ∧ (urljoinParts host t).netloc = host.netloc))
    ∧ postLoginTarget host none = RedirectTarget.indexPage
    ∧ (is_safe_url host t = false →
        postLoginTarget host (some t) = RedirectTarget.indexPage)
    ∧ (is_safe_url host t = true →
        postLoginTarget host (some t) = RedirectTarget.follow t) := by
  refine ⟨?_, rfl, ?_, ?_⟩
  · simp only [is_safe_url, Bool.and_eq_true, Bool.or_eq_true, beq_iff_eq]
    exact ⟨fun h => ⟨h.1, h.2.symm⟩, fun h => ⟨h.1, h.2.symm⟩⟩
  · intro h
    simp [postLoginTarget, h]
  · intro h
    simp [postLoginTarget, h]

/-- C6 witness: the amended theorem applied to the concrete site — an
off-site target falls back to the index page, a relative target is
followed. -/
theorem C6_safe_redirect_characterization_witness :
    postLoginTarget hostDemo
        (some { scheme := "https", netloc := "evil.com" })
      = RedirectTarget.indexPage
    ∧ postLoginTarget hostDemo (some { scheme := "", netloc := "" })
      = RedirectTarget.follow { scheme := "", netloc := "" } :=
  ⟨(C6_safe_redirect_characterization hostDemo
      { scheme := "https", netloc := "evil.com" }).2.2.1 (by decide),
   (C6_safe_redirect_characterization hostDemo
      { scheme := "", netloc := "" }).2.2.2 (by decide)⟩

/-- C7: with the credential module modelled from the spec — hashing pairs a
salt with the output of the key-derivation function, verification recomputes
and compares — verifying a password against its own hash always succeeds,
and, provided the derivation is collision-free per salt, verifying any other
password returns false (and, being a total boolean function, never throws). -/
theorem C7_password_hash_roundtrip {D : Type} [DecidableEq D]
    (kdf : Nat → String → D)
    (hinj : ∀ s : Nat, Function.Injective (kdf s))
    (salt : Nat) (p p2 : String) (hne : p2 ≠ p) :
    check_password_hash kdf (generate_password_hash kdf salt p) p = true
      ∧ check_password_hash kdf (generate_password_hash kdf salt p) p2
        = false := by
  constructor
  · simp [check_password_hash, generate_password_hash]
  · simp only [check_password_hash, generate_password_hash,
      decide_eq_false_iff_not]
    intro h
    exact hne (hinj salt h)

/-- C7 witness: the round-trip theorem at a concrete injective derivation
function and concrete passwords. -/
theorem C7_password_hash_roundtrip_witness :
    check_password_hash kdfId
        (generate_password_hash kdfId 0 "password123") "password123" = true
      ∧ check_password_hash kdfId
        (generate_password_hash kdfId 0 "password123") "hunter2" = false :=
  C7_password_hash_roundtrip kdfId (fun _ _ _ h => h) 0 "password123"
    "hunter2" (by decide)

/-- C8: the account handler's prechecks run before any form processing or
store write — the store it returns is the one it was given — answering 404
exactly when no record with the id exists, 403 when the record exists but the
requester is neither that user nor an administrator, and an administrator is
never turned away by either precheck. -/
theorem C8_account_precheck (users : Table) (cu : Principal) (uid : String)
    (method : Method) (f : AccountForm) (formValid : Bool)
    (hashed now : String) :
    (getItem users "user_id" uid = none →
      account users cu uid method f formValid hashed now
        = (AccountOutcome.notFound404, users))
    ∧ (∀ user, getItem users "user_id" uid = some user →
        getS user "user_id" ≠ some cu.user_id →
        cu.is_administrator = false →
        account users cu uid method f formValid hashed now
          = (AccountOutcome.forbidden403, users))
    ∧ (∀ user, getItem users "user_id" uid = some user →
        cu.is_administrator = true →
        (account users cu uid method f formValid hashed now).1
            ≠ AccountOutcome.notFound404
          ∧ (account users cu uid method f formValid hashed now).1
            ≠ AccountOutcome.forbidden403) := by
  refine ⟨?_, ?_, ?_⟩
  · intro h
    unfold account
    rw [h]
  · intro user h hne hadm
    unfold account
    rw [h]
    simp [hne, hadm]
  · intro user h hadm
    unfold account
    rw [h]
    simp [hadm, formConstructionRaisesTypeError,
      accountFormCallPositional, updateUserFormInitPositional]

/-- C8 witness: the precheck theorem at concrete requests — a missing id
404s, a non-owner non-admin 403s, and an administrator passes both
prechecks. -/
theorem C8_account_precheck_witness :
    account usersDemo ownerU1 "NOPE" Method.GET
        { user_name := "", email := "", password := "" } false "h" "t1"
      = (AccountOutcome.notFound404, usersDemo)
    ∧ account usersDemo outsiderU2 "U1" Method.GET
        { user_name := "", email := "", password := "" } false "h" "t1"
      = (AccountOutcome.forbidden403, usersDemo)
    ∧ (account usersDemo adminA "U1" Method.GET
        { user_name := "", email := "", password := "" } false "h" "t1").1
      ≠ AccountOutcome.forbidden403 :=
  ⟨(C8_account_precheck usersDemo ownerU1 "NOPE" Method.GET
      { user_name := "", email := "", password := "" } false "h" "t1").1
      (by decide),
   (C8_account_precheck usersDemo outsiderU2 "U1" Method.GET
      { user_name := "", email := "", password := "" } false "h" "t1").2.1
      aliceItem (by decide) (by decide) (by decide),
   ((C8_account_precheck usersDemo adminA "U1" Method.GET
      { user_name := "", email := "", password := "" } false "h" "t1").2.2
      aliceItem (by decide) (by decide)).2⟩

/-- C9: the delete handler cannot remove anything: its first statement
references the global `Post`, which is bound nowhere at module scope (nor is
`db`), so every invocation raises an uncaught `NameError`, the post with the
given primary key stays in the store, and no redirect to the landing page is
issued. -/
theorem C9_delete_raises_name_error :
    moduleTopLevelNames.contains "Post" = false
      ∧ moduleTopLevelNames.contains "db" = false
      ∧ delete postsIntDemo 1 = (DeleteOutcome.nameError "Post", postsIntDemo)
      ∧ getItem postsIntDemo "post_id" "1" ≠ none := by
  decide

/-- C10: when the stored email of a user is not in lowercase form, a login
submitting exactly that stored email with the correct password passes both
form validators (whose index query uses the submitted email verbatim), but
the handler then queries the index with the lowercased email, finds nothing,
and answers with the generic invalid-credentials flash — no session is
bound. -/
theorem C10_mixed_case_email_login_fails (users : List UserRec)
    (chk : String → String → Bool) (e p : String) (host : UrlParts)
    (next_page : Option UrlParts) (u : UserRec) (rest : List UserRec)
    (hq : resourceQueryByEmail users e = u :: rest)
    (hpw : chk u.password p = true)
    (hlow : resourceQueryByEmail users (pyLower e) = []) :
    login users chk e p host next_page =
      { emailErrors := [], passwordErrors := [],
        flash := [("メールアドレスまたはパスワードが正しくありません。",
          "error")],
        sessionUser := none, redirect := none } := by
  simp [login, loginEmailValidation, loginEmailTryBody, loginPasswordErrors,
    hq, hpw, hlow]

/-- C10 witness: `U1` registered with `Alice@Example.com`; submitting that
exact email with the correct password binds no session. -/
theorem C10_mixed_case_email_login_fails_witness :
    login [aliceRec] chkDemo "Alice@Example.com" "pw" hostDemo none =
      { emailErrors := [], passwordErrors := [],
        flash := [("メールアドレスまたはパスワードが正しくありません。",
          "error")],
        sessionUser := none, redirect := none } :=
  C10_mixed_case_email_login_fails [aliceRec] chkDemo "Alice@Example.com"
    "pw" hostDemo none aliceRec [] (by decide) (by decide) (by decide)

end OkameApp
